import Mathlib

/-! Shallow embedding of the garmin_wrapped cleaning and analysis pipeline
(src/main.py and src/exploration.py). A pandas cell value is modelled by an
inductive type; a pandas DataFrame is modelled column-major, as an
association list from column name to the list of that column's cells, in
column order, with the default RangeIndex left implicit. Floating point
arithmetic is idealised over the rationals. -/

namespace Garmin

/-- A single pandas cell value. `pynone` is Python `None`, `nan` is float
NaN (both count as missing for `isna`), `dnull` is `NaT`, the missing value
of datetime columns; `pynone` also stands for `pd.NA`. `num` covers Python
ints and floats (idealised as rationals), `dtime` is a datetime carrying its
millisecond epoch value, and `nested` abstracts the unhashable dict/list
payloads some raw columns hold (payload abstracted by an identifier; such
values are non-null and unhashable). -/
inductive Cell where
  | pynone
  | nan
  | dnull
  | boolv (b : Bool)
  | num (q : ℚ)
  | strv (s : String)
  | dtime (ms : ℚ)
  | nested (payload : Nat)
  deriving DecidableEq

deriving instance DecidableEq for Except

/-- pandas `isna`: `None`, float NaN and `NaT` are the missing values. -/
def Cell.isna : Cell → Bool
  | .pynone => true
  | .nan => true
  | .dnull => true
  | _ => false

/-- Python truthiness, as applied elementwise by `Series.astype(bool)` on an
object column: `bool(None)` is `False` but `bool(float("nan"))` is `True`;
zero numbers and the empty string are falsy. `NaT` and nested containers do
not occur in the boolean-like columns this is applied to and are modelled as
truthy. -/
def Cell.pyBool : Cell → Bool
  | .pynone => false
  | .nan => true
  | .dnull => true
  | .boolv b => b
  | .num q => decide (q ≠ 0)
  | .strv s => decide (s ≠ "")
  | .dtime _ => true
  | .nested _ => true

/-- A pandas DataFrame, column-major: column name paired with the column's
cells, in column order. All columns of a well-formed frame have the same
length (one entry per row). -/
abbrev DataFrame := List (String × List Cell)

/-- Column lookup (`df[c]` on a frame where `c` may be absent); first match
wins, mirroring the unique column names of a pandas frame. -/
def getCol : DataFrame → String → Option (List Cell)
  | [], _ => none
  | p :: ps, c => if p.1 = c then some p.2 else getCol ps c

/-- pandas `c in df`: membership test over the column names. -/
def hasCol (df : DataFrame) (c : String) : Bool :=
  (getCol df c).isSome

/-- The column names, in order (`df.columns`). -/
def colNames (df : DataFrame) : List String :=
  df.map (fun p => p.1)

/-- Replace the cells of every column named `c` (helper for `setCol`). -/
def replaceCol (df : DataFrame) (c : String) (v : List Cell) : DataFrame :=
  df.map (fun p => if p.1 = c then (c, v) else p)

/-- pandas column assignment `df[c] = v`: overwrite the column in place if
present, else append it as the last column. -/
def setCol (df : DataFrame) (c : String) (v : List Cell) : DataFrame :=
  if hasCol df c then replaceCol df c v else df ++ [(c, v)]

/-- pandas `df.drop(columns=names, errors="ignore")`. -/
def dropCols (df : DataFrame) (names : List String) : DataFrame :=
  df.filter (fun p => !(names.contains p.1))

/-- pandas column selection `df[names]` (each name assumed present; absent
names are skipped). -/
def selectCols (df : DataFrame) : List String → DataFrame
  | [] => []
  | n :: ns =>
    match getCol df n with
    | some v => (n, v) :: selectCols df ns
    | none => selectCols df ns

/-- Number of rows (`len(df)`), read off the first column. -/
def nRows (df : DataFrame) : Nat :=
  match df with
  | [] => 0
  | p :: _ => p.2.length

theorem getCol_nil (c : String) : getCol [] c = none := rfl

theorem getCol_cons (p : String × List Cell) (ps : DataFrame) (c : String) :
    getCol (p :: ps) c = if p.1 = c then some p.2 else getCol ps c := rfl

theorem replaceCol_cons (p : String × List Cell) (ps : DataFrame)
    (c : String) (v : List Cell) :
    replaceCol (p :: ps) c v =
      (if p.1 = c then (c, v) else p) :: replaceCol ps c v := rfl

theorem getCol_eq_none (df : DataFrame) (c : String) (h : ¬ hasCol df c) :
    getCol df c = none := by
  unfold hasCol at h
  cases hg : getCol df c with
  | none => rfl
  | some v => rw [hg] at h; simp at h

theorem getCol_mem (df : DataFrame) (c : String) (v : List Cell)
    (h : getCol df c = some v) : (c, v) ∈ df := by
  induction df with
  | nil => simp [getCol] at h
  | cons p ps ih =>
    rw [getCol_cons] at h
    by_cases hc : p.1 = c
    · rw [if_pos hc] at h
      cases h
      subst hc
      exact List.mem_cons_self p ps
    · rw [if_neg hc] at h
      exact List.mem_cons_of_mem p (ih h)

theorem hasCol_iff_mem_colNames (df : DataFrame) (c : String) :
    hasCol df c = true ↔ c ∈ colNames df := by
  induction df with
  | nil => simp [hasCol, getCol, colNames]
  | cons p ps ih =>
    simp only [hasCol, getCol_cons, colNames, List.map_cons, List.mem_cons]
    by_cases hc : p.1 = c
    · simp [hc]
    · rw [if_neg hc]
      have h1 : (c = p.1) ↔ False := ⟨fun hx => hc hx.symm, False.elim⟩
      rw [h1]
      simp only [false_or]
      exact ih

theorem getCol_replaceCol_same (df : DataFrame) (c : String) (v : List Cell)
    (h : hasCol df c = true) : getCol (replaceCol df c v) c = some v := by
  revert h
  induction df with
  | nil => intro h; simp [hasCol, getCol] at h
  | cons p ps ih =>
    intro h
    rw [replaceCol_cons]
    by_cases hc : p.1 = c
    · rw [if_pos hc, getCol_cons, if_pos rfl]
    · rw [if_neg hc, getCol_cons, if_neg hc]
      apply ih
      unfold hasCol at h ⊢
      rw [getCol_cons, if_neg hc] at h
      exact h

theorem getCol_replaceCol_other (df : DataFrame) (c cc : String)
    (v : List Cell) (h : cc ≠ c) :
    getCol (replaceCol df c v) cc = getCol df cc := by
  induction df with
  | nil => rfl
  | cons p ps ih =>
    rw [replaceCol_cons, getCol_cons, getCol_cons]
    by_cases hc : p.1 = c
    · have h1 : ¬ ((c, v) : String × List Cell).1 = cc :=
        fun hx => h (hx.symm)
      have h2 : ¬ p.1 = cc := fun hx => h (hc.symm.trans hx).symm
      rw [if_pos hc, if_neg h1, if_neg h2]
      exact ih
    · rw [if_neg hc]
      by_cases hcc : p.1 = cc
      · rw [if_pos hcc, if_pos hcc]
      · rw [if_neg hcc, if_neg hcc]
        exact ih

theorem getCol_append (df₁ df₂ : DataFrame) (c : String) :
    getCol (df₁ ++ df₂) c =
      match getCol df₁ c with
      | some v => some v
      | none => getCol df₂ c := by
  induction df₁ with
  | nil => simp [getCol]
  | cons p ps ih =>
    rw [List.cons_append, getCol_cons, getCol_cons]
    by_cases hc : p.1 = c
    · rw [if_pos hc, if_pos hc]
    · rw [if_neg hc, if_neg hc]
      exact ih

theorem getCol_setCol_same (df : DataFrame) (c : String) (v : List Cell) :
    getCol (setCol df c v) c = some v := by
  unfold setCol
  by_cases h : hasCol df c
  · rw [if_pos h]
    exact getCol_replaceCol_same df c v h
  · rw [if_neg h, getCol_append, getCol_eq_none df c h]
    simp [getCol]

theorem getCol_setCol_other (df : DataFrame) (c cc : String) (v : List Cell)
    (h : cc ≠ c) : getCol (setCol df c v) cc = getCol df cc := by
  unfold setCol
  by_cases hp : hasCol df c
  · rw [if_pos hp]
    exact getCol_replaceCol_other df c cc v h
  · rw [if_neg hp, getCol_append]
    cases hg : getCol df cc with
    | some w => rfl
    | none =>
      rw [getCol_cons, getCol_nil, if_neg (fun hx : c = cc => h hx.symm)]

/-! ## build_clean_dataframe (src/main.py lines 29-101) -/

/-- Columns dropped up front as nested/irrelevant noise. -/
def noise_cols : List String :=
  ["summarizedExerciseSets", "summarizedDiveInfo", "uuidMsb", "uuidLsb", "rule"]

/-- pandas `pd.to_datetime(x, unit="ms", errors="coerce")`, cellwise:
numbers become datetimes carrying the millisecond value; every missing or
unparsable value coerces to `NaT` rather than failing the column. -/
def toDatetimeCell : Cell → Cell
  | .num q => .dtime q
  | _ => .dnull

/-- Division of a (numeric or missing) cell by a nonzero constant, with
float64 column semantics: a missing value propagates as NaN. Non-numeric
values do not occur in the measure columns this is applied to; they are
modelled as NaN as well. -/
def divConst (c : Cell) (k : ℚ) : Cell :=
  match c with
  | .num q => .num (q / k)
  | _ => .nan

/-- Multiplication of a cell by a constant (float64 column semantics, as in
`divConst`). -/
def mulConst (c : Cell) (k : ℚ) : Cell :=
  match c with
  | .num q => .num (q * k)
  | _ => .nan

/-- One presence-checked scaled derivation: `df[cleanc] = df[rawc] / k`
when `rawc` is present, a silent skip otherwise. -/
def deriveScaled (df : DataFrame) (rawc cleanc : String) (k : ℚ) : DataFrame :=
  match getCol df rawc with
  | some v => setCol df cleanc (v.map (fun c => divConst c k))
  | none => df

/-- One presence-checked datetime derivation (src/main.py lines 45-50). -/
def deriveDatetime (df : DataFrame) (rawc cleanc : String) : DataFrame :=
  match getCol df rawc with
  | some v => setCol df cleanc (v.map toDatetimeCell)
  | none => df

def derive_timestamps (df : DataFrame) : DataFrame :=
  deriveDatetime
    (deriveDatetime (deriveDatetime df "startTimeGmt" "start_time_gmt")
      "startTimeLocal" "start_time_local")
    "beginTimestamp" "begin_time"

/-- The three millisecond-duration columns, converted to minutes
(src/main.py lines 52-60). -/
def derive_durations (df : DataFrame) : DataFrame :=
  deriveScaled
    (deriveScaled (deriveScaled df "duration" "duration_minutes" 60000)
      "elapsedDuration" "elapsed_minutes" 60000)
    "movingDuration" "moving_minutes" 60000

/-- Garmin distance is centimeters: `distance_km = distance / 100000` and
`distance_mi = distance_km * 0.621371` (src/main.py lines 64-66). -/
def derive_distance (df : DataFrame) : DataFrame :=
  match getCol df "distance" with
  | some v =>
    let km := v.map (fun c => divConst c 100000)
    setCol (setCol df "distance_km" km) "distance_mi"
      (km.map (fun c => mulConst c (621371 / 1000000)))
  | none => df

/-- `avg_speed_mph = avgSpeed * 2.23694` (src/main.py lines 67-68). -/
def derive_speed (df : DataFrame) : DataFrame :=
  match getCol df "avgSpeed" with
  | some v =>
    setCol df "avg_speed_mph" (v.map (fun c => mulConst c (223694 / 100000)))
  | none => df

/-- `Series.replace({0: pd.NA})`: cells equal (by Python `==`) to `0`
become `pd.NA`; `False == 0` holds in Python, so a boolean `False` would
be replaced too. -/
def replaceZeroNA (c : Cell) : Cell :=
  if c = .num 0 ∨ c = .boolv false then .pynone else c

/-- Elementwise division of two series cells: a `pd.NA` denominator
propagates as `pd.NA`, any other missing operand propagates as NaN;
otherwise plain division. The zero denominators have been replaced by
`pd.NA` before this is used, so the division never sees a zero. -/
def seriesDiv (a b : Cell) : Cell :=
  match b with
  | .pynone => .pynone
  | _ =>
    if a.isna ∨ b.isna then .nan
    else
      match a, b with
      | .num x, .num y => .num (x / y)
      | _, _ => .nan

/-- `df["calories_per_min"] = df["calories"] / df["duration_minutes"].replace({0: pd.NA})`
when both columns are present (src/main.py lines 69-72). -/
def derive_calories_per_min (df : DataFrame) : DataFrame :=
  match getCol df "calories", getCol df "duration_minutes" with
  | some cal, some dur =>
    setCol df "calories_per_min"
      (List.zipWith (fun a b => seriesDiv a (replaceZeroNA b)) cal dur)
  | _, _ => df

def preferred_order : List String :=
  ["activityId", "name", "activityType", "sportType", "start_time_local",
   "start_time_gmt", "duration_minutes", "moving_minutes", "distance_km",
   "distance_mi", "avg_speed_mph", "avgHr", "maxHr", "steps", "calories",
   "calories_per_min", "trainingEffectLabel", "moderateIntensityMinutes",
   "vigorousIntensityMinutes", "totalSets", "totalReps"]

/-- Reorder columns: the preferred names that are present first, in that
order, then every remaining column in original order (src/main.py 74-101). -/
def reorder_columns (df : DataFrame) : DataFrame :=
  let existing := preferred_order.filter (fun c => hasCol df c)
  let remaining := (colNames df).filter (fun c => !(existing.contains c))
  selectCols df (existing ++ remaining)

/-- src/main.py `build_clean_dataframe`, modelled on the frame obtained
from `pd.DataFrame(records)` (the raw-record-to-frame construction itself
is pandas, outside the embedding): drop noise columns, derive datetimes,
durations, distances, speed and calories-per-minute, then reorder. -/
def build_clean_dataframe (df : DataFrame) : DataFrame :=
  reorder_columns
    (derive_calories_per_min
      (derive_speed
        (derive_distance
          (derive_durations
            (derive_timestamps
              (dropCols df noise_cols))))))

/-! ## tidy_dataframe (src/main.py lines 104-137) -/

/-- Fraction of missing values in a column (`df.isna().mean()`); an empty
column gives 0 here where pandas gives NaN, and both fail the `> 0.9`
sparseness test the value is used for. -/
def nullFrac (v : List Cell) : ℚ :=
  (v.countP (fun c => c.isna)) / v.length

/-- A column holding dict/list values cannot be hashed; `nunique` raises
`TypeError` on such a column. -/
def hasUnhashable (v : List Cell) : Bool :=
  v.any (fun c => match c with | .nested _ => true | _ => false)

/-- Distinct values of a list, keeping first occurrences in encounter
order. -/
def dedupF {α : Type} [DecidableEq α] (l : List α) : List α :=
  l.foldl (fun acc c => if acc.contains c then acc else acc ++ [c]) []

/-- `Series.nunique(dropna=False)`: the number of distinct non-null values,
plus one if any missing value is present (pandas groups all NA flavors
into one distinct value). -/
def nuniqueDropnaFalse (v : List Cell) : Nat :=
  (dedupF (v.filter (fun c => !c.isna))).length +
    (if v.any (fun c => c.isna) then 1 else 0)

/-- Column names flagged sparse: null fraction above 0.9, computed on the
frame as given (pre-coercion). -/
def sparse_cols (df : DataFrame) : List String :=
  (df.filter (fun p => decide ((9 : ℚ) / 10 < nullFrac p.2))).map (fun p => p.1)

/-- Column names flagged constant: hashable with exactly one distinct
value, nulls counted (`nunique(dropna=False) == 1`); unhashable columns
are skipped by the `TypeError` handler and never flagged. -/
def constant_cols (df : DataFrame) : List String :=
  (df.filter (fun p =>
    !(hasUnhashable p.2) && decide (nuniqueDropnaFalse p.2 = 1))).map (fun p => p.1)

/-- The fixed boolean-like column set coerced via `astype(bool)`. -/
def boolean_like : List String :=
  ["parent", "pr", "elevationCorrected", "decoDive", "purposeful",
   "autoCalcCalories", "favorite", "atpActivity"]

/-- The boolean coercion loop: `astype(bool)` applies Python truthiness
elementwise (see `Cell.pyBool`) and never raises on the values occurring
in these columns. -/
def coerce_boolean_like (df : DataFrame) : DataFrame :=
  df.map (fun p =>
    if boolean_like.contains p.1 then
      (p.1, p.2.map (fun c => Cell.boolv c.pyBool))
    else p)

def id_cols : List String :=
  ["activityId", "userProfileId", "deviceId", "eventTypeId", "timeZoneId"]

/-- `astype("Int64")` on one cell: missing values become `pd.NA`, booleans
become 0/1, integral numbers stay; a non-integral float cannot be safely
cast and anything non-numeric cannot be converted — those raise. -/
def toInt64 (c : Cell) : Except String Cell :=
  match c with
  | .pynone => .ok .pynone
  | .nan => .ok .pynone
  | .boolv b => .ok (.num (if b then 1 else 0))
  | .num q =>
    if q.den = 1 then .ok (.num q)
    else .error "cannot safely cast non-equivalent values"
  | _ => .error "cannot convert to IntegerDtype"

/-- One column under the identifier coercion loop: an id column is
converted cellwise by `toInt64`, every other column passes through. -/
def coerceIdEntry (p : String × List Cell) : Except String (String × List Cell) :=
  if id_cols.contains p.1 then
    match p.2.mapM toInt64 with
    | .ok v => .ok (p.1, v)
    | .error e => .error e
  else .ok p

/-- The identifier coercion loop: `astype("Int64")` on each id column that
is present. -/
def coerce_id_cols (df : DataFrame) : Except String DataFrame :=
  df.mapM coerceIdEntry

/-- src/main.py `tidy_dataframe`: flag sparse and constant columns on the
incoming frame, coerce the boolean-like and identifier columns, then drop
the flagged columns by the originally detected name set. -/
def tidy_dataframe (df : DataFrame) : Except String DataFrame := do
  let sparse := sparse_cols df
  let constant := constant_cols df
  let df1 := coerce_boolean_like df
  let df2 ← coerce_id_cols df1
  pure (dropCols df2 (sparse ++ constant))

/-! ## Structural lemmas about the tidy pipeline -/

theorem coerceIdEntry_ok (p q : String × List Cell)
    (h : coerceIdEntry p = .ok q) :
    q.1 = p.1 ∧ (¬ id_cols.contains p.1 → q = p) := by
  unfold coerceIdEntry at h
  by_cases hid : id_cols.contains p.1
  · rw [if_pos hid] at h
    cases hm : p.2.mapM toInt64 with
    | ok v => rw [hm] at h; cases h; exact ⟨rfl, fun hn => absurd hid hn⟩
    | error e => rw [hm] at h; cases h
  · rw [if_neg hid] at h
    cases h
    exact ⟨rfl, fun _ => rfl⟩

theorem coerce_id_cols_nil : coerce_id_cols [] = .ok [] := rfl

theorem coerce_id_cols_cons (p : String × List Cell) (ps : DataFrame) :
    coerce_id_cols (p :: ps) =
      Except.bind (coerceIdEntry p) (fun q =>
        Except.bind (coerce_id_cols ps) (fun qs => Except.ok (q :: qs))) := by
  unfold coerce_id_cols
  rw [List.mapM_cons]
  rfl

theorem coerce_id_cols_ok (df df2 : DataFrame)
    (h : coerce_id_cols df = .ok df2) :
    colNames df2 = colNames df ∧
    (∀ c, ¬ id_cols.contains c → getCol df2 c = getCol df c) := by
  induction df generalizing df2 with
  | nil =>
    rw [coerce_id_cols_nil] at h
    cases h
    exact ⟨rfl, fun c _ => rfl⟩
  | cons p ps ih =>
    rw [coerce_id_cols_cons] at h
    cases hq : coerceIdEntry p with
    | error e => rw [hq] at h; cases h
    | ok q =>
      rw [hq] at h
      simp only [Except.bind] at h
      cases hps : coerce_id_cols ps with
      | error e => rw [hps] at h; cases h
      | ok qs =>
        rw [hps] at h
        simp only [] at h
        injection h with h
        subst h
        obtain ⟨hfst, hsame⟩ := coerceIdEntry_ok p q hq
        obtain ⟨ihn, ihg⟩ := ih qs hps
        constructor
        · unfold colNames at ihn ⊢
          rw [List.map_cons, List.map_cons, hfst, ihn]
        · intro c hc
          rw [getCol_cons, getCol_cons, hfst]
          by_cases hp : p.1 = c
          · rw [if_pos hp, if_pos hp]
            have : q = p := hsame (by rw [hp]; exact hc)
            rw [this]
          · rw [if_neg hp, if_neg hp]
            exact ihg c hc

theorem getCol_coerce_boolean_like (df : DataFrame) (c : String) :
    getCol (coerce_boolean_like df) c =
      if boolean_like.contains c then
        (getCol df c).map (fun v => v.map (fun x => Cell.boolv x.pyBool))
      else getCol df c := by
  induction df with
  | nil =>
    by_cases hb : boolean_like.contains c <;>
      simp [coerce_boolean_like, getCol, hb]
  | cons p ps ih =>
    unfold coerce_boolean_like at ih ⊢
    rw [List.map_cons]
    by_cases hp : p.1 = c
    · subst hp
      by_cases hb : boolean_like.contains p.1
      · rw [if_pos hb, if_pos hb, getCol_cons, getCol_cons]
        simp
      · rw [if_neg hb, if_neg hb, getCol_cons, getCol_cons]
        simp
    · have hhead :
          ((if boolean_like.contains p.1 then
              (p.1, p.2.map (fun x => Cell.boolv x.pyBool))
            else p) :
            String × List Cell).1 = p.1 := by
        by_cases hb : boolean_like.contains p.1
        · rw [if_pos hb]
        · rw [if_neg hb]
      rw [getCol_cons, hhead, if_neg hp]
      rw [getCol_cons, if_neg hp]
      exact ih

theorem colNames_coerce_boolean_like (df : DataFrame) :
    colNames (coerce_boolean_like df) = colNames df := by
  induction df with
  | nil => rfl
  | cons p ps ih =>
    unfold coerce_boolean_like colNames at ih ⊢
    rw [List.map_cons, List.map_cons, List.map_cons]
    by_cases hb : boolean_like.contains p.1
    · rw [if_pos hb]
      rw [List.map_map] at ih
      rw [List.map_map, ih]
    · rw [if_neg hb]
      rw [List.map_map] at ih
      rw [List.map_map, ih]

theorem colNames_dropCols (df : DataFrame) (names : List String) :
    colNames (dropCols df names) =
      (colNames df).filter (fun c => !(names.contains c)) := by
  induction df with
  | nil => rfl
  | cons p ps ih =>
    unfold dropCols colNames at ih ⊢
    rw [List.filter_cons, List.map_cons, List.filter_cons]
    by_cases hn : names.contains p.1
    · rw [hn]
      simp only [Bool.not_true, if_false]
      exact ih
    · rw [Bool.of_not_eq_true hn]
      simp only [Bool.not_false, if_true, List.map_cons]
      rw [ih]

theorem getCol_dropCols (df : DataFrame) (names : List String) (c : String) :
    getCol (dropCols df names) c =
      if names.contains c then none else getCol df c := by
  induction df with
  | nil =>
    by_cases hn : names.contains c <;> simp [dropCols, getCol, hn]
  | cons p ps ih =>
    unfold dropCols at ih ⊢
    rw [List.filter_cons]
    by_cases hn : names.contains p.1
    · rw [hn]
      simp only [Bool.not_true, Bool.false_eq_true, if_false]
      rw [ih]
      by_cases hcc : names.contains c
      · rw [if_pos hcc, if_pos hcc]
      · rw [if_neg hcc, if_neg hcc, getCol_cons,
          if_neg (fun hp : p.1 = c => hcc (by rw [← hp]; exact hn))]
    · rw [Bool.of_not_eq_true hn]
      simp only [Bool.not_false, if_true]
      rw [getCol_cons, ih]
      by_cases hp : p.1 = c
      · rw [if_pos hp,
          if_neg (fun hx : names.contains c = true => hn (by rw [hp]; exact hx)),
          getCol_cons, if_pos hp]
      · rw [if_neg hp]
        by_cases hcc : names.contains c
        · rw [if_pos hcc, if_pos hcc]
        · rw [if_neg hcc, if_neg hcc, getCol_cons, if_neg hp]

/-- `tidy_dataframe df` succeeds exactly when the identifier coercion does,
and then returns the coerced frame with the originally flagged columns
dropped. -/
theorem tidy_dataframe_ok (df out : DataFrame) :
    tidy_dataframe df = .ok out ↔
      ∃ df2, coerce_id_cols (coerce_boolean_like df) = .ok df2 ∧
        out = dropCols df2 (sparse_cols df ++ constant_cols df) := by
  unfold tidy_dataframe
  simp only [Bind.bind, Except.bind, pure, Except.pure]
  constructor
  · intro h
    cases hc : coerce_id_cols (coerce_boolean_like df) with
    | error e =>
      rw [hc] at h
      cases h
    | ok df2 =>
      rw [hc] at h
      injection h with h
      exact ⟨df2, rfl, h.symm⟩
  · rintro ⟨df3, h3, hout⟩
    rw [h3, hout]

theorem contains_iff_mem {α : Type} [BEq α] [LawfulBEq α] (l : List α)
    (a : α) : l.contains a = true ↔ a ∈ l :=
  List.elem_iff

/-! ## Claim C1 -/

/-- C1: in `tidy_dataframe` the removed column set is determined entirely
on the pre-coercion table. On success the surviving column names are
exactly the input names minus the names flagged on the incoming frame:
every sparse-flagged name (null fraction above 0.9) and every hashable
constant-flagged name (`nunique(dropna=False) = 1`) is absent from the
result, while a present unhashable column that is not flagged sparse is
retained regardless of constancy; the boolean and integer coercions happen
after this detection and removal uses the originally detected name set. -/
theorem tidy_column_pruning (df out : DataFrame)
    (h : tidy_dataframe df = .ok out) :
    colNames out = (colNames df).filter
      (fun c => !((sparse_cols df ++ constant_cols df).contains c)) ∧
    (∀ c, c ∈ sparse_cols df → hasCol out c = false) ∧
    (∀ c, c ∈ constant_cols df → hasCol out c = false) ∧
    (∀ c, c ∈ colNames df → c ∉ sparse_cols df → c ∉ constant_cols df →
      hasCol out c = true) := by
  obtain ⟨df2, hco, hout⟩ := (tidy_dataframe_ok df out).mp h
  obtain ⟨hn2, _⟩ := coerce_id_cols_ok _ _ hco
  have hnames : colNames df2 = colNames df := by
    rw [hn2, colNames_coerce_boolean_like]
  have hmain : colNames out = (colNames df).filter
      (fun c => !((sparse_cols df ++ constant_cols df).contains c)) := by
    rw [hout, colNames_dropCols, hnames]
  have hmem : ∀ c, c ∈ colNames out ↔
      c ∈ colNames df ∧ c ∉ sparse_cols df ∧ c ∉ constant_cols df := by
    intro c
    rw [hmain, List.mem_filter]
    constructor
    · rintro ⟨hcd, hflag⟩
      rw [Bool.not_eq_true'] at hflag
      refine ⟨hcd, ?_, ?_⟩
      · intro hs
        exact absurd ((contains_iff_mem _ _).mpr (List.mem_append_left _ hs))
          (by rw [hflag]; exact Bool.false_ne_true)
      · intro hk
        exact absurd ((contains_iff_mem _ _).mpr (List.mem_append_right _ hk))
          (by rw [hflag]; exact Bool.false_ne_true)
    · rintro ⟨hcd, hs, hk⟩
      refine ⟨hcd, ?_⟩
      rw [Bool.not_eq_true', Bool.eq_false_iff]
      intro hcon
      rcases List.mem_append.mp ((contains_iff_mem _ _).mp hcon) with hx | hx
      · exact hs hx
      · exact hk hx
  refine ⟨hmain, ?_, ?_, ?_⟩
  · intro c hs
    cases hb : hasCol out c with
    | false => rfl
    | true =>
      exact absurd ((hmem c).mp ((hasCol_iff_mem_colNames out c).mp hb)).2.1
        (fun hx => hx hs)
  · intro c hk
    cases hb : hasCol out c with
    | false => rfl
    | true =>
      exact absurd ((hmem c).mp ((hasCol_iff_mem_colNames out c).mp hb)).2.2
        (fun hx => hx hk)
  · intro c hcd hs hk
    exact (hasCol_iff_mem_colNames out c).mpr ((hmem c).mpr ⟨hcd, hs, hk⟩)

/-- Concrete run of `tidy_column_pruning`: a frame with an all-null column
(sparse and constant), a constant numeric column, an unhashable constant
column and a varied string column keeps exactly the last two. -/
theorem tidy_column_pruning_witness :
    tidy_dataframe
        [("activityType", [Cell.strv "RUN", Cell.strv "RIDE"]),
         ("mostlyNull", [Cell.pynone, Cell.pynone]),
         ("constCol", [Cell.num 7, Cell.num 7]),
         ("nestedCol", [Cell.nested 0, Cell.nested 1])] =
      .ok [("activityType", [Cell.strv "RUN", Cell.strv "RIDE"]),
           ("nestedCol", [Cell.nested 0, Cell.nested 1])] ∧
    colNames
        [("activityType", [Cell.strv "RUN", Cell.strv "RIDE"]),
         ("nestedCol", [Cell.nested 0, Cell.nested 1])] =
      (colNames
        [("activityType", [Cell.strv "RUN", Cell.strv "RIDE"]),
         ("mostlyNull", [Cell.pynone, Cell.pynone]),
         ("constCol", [Cell.num 7, Cell.num 7]),
         ("nestedCol", [Cell.nested 0, Cell.nested 1])]).filter
        (fun c => !((sparse_cols
            [("activityType", [Cell.strv "RUN", Cell.strv "RIDE"]),
             ("mostlyNull", [Cell.pynone, Cell.pynone]),
             ("constCol", [Cell.num 7, Cell.num 7]),
             ("nestedCol", [Cell.nested 0, Cell.nested 1])] ++
          constant_cols
            [("activityType", [Cell.strv "RUN", Cell.strv "RIDE"]),
             ("mostlyNull", [Cell.pynone, Cell.pynone]),
             ("constCol", [Cell.num 7, Cell.num 7]),
             ("nestedCol", [Cell.nested 0, Cell.nested 1])]).contains c)) := by
  have h : tidy_dataframe
      [("activityType", [Cell.strv "RUN", Cell.strv "RIDE"]),
       ("mostlyNull", [Cell.pynone, Cell.pynone]),
       ("constCol", [Cell.num 7, Cell.num 7]),
       ("nestedCol", [Cell.nested 0, Cell.nested 1])] =
      .ok [("activityType", [Cell.strv "RUN", Cell.strv "RIDE"]),
           ("nestedCol", [Cell.nested 0, Cell.nested 1])] := by
    with_unfolding_all rfl
  exact ⟨h, (tidy_column_pruning _ _ h).1⟩

/-! ## Structural lemmas about the build stages -/

theorem getCol_deriveScaled_other (df : DataFrame) (rawc cleanc : String)
    (k : ℚ) (c : String) (h : c ≠ cleanc) :
    getCol (deriveScaled df rawc cleanc k) c = getCol df c := by
  unfold deriveScaled
  cases hr : getCol df rawc with
  | none => rfl
  | some v => exact getCol_setCol_other _ _ _ _ h

theorem getCol_deriveScaled_same (df : DataFrame) (rawc cleanc : String)
    (k : ℚ) (v : List Cell) (h : getCol df rawc = some v) :
    getCol (deriveScaled df rawc cleanc k) cleanc =
      some (v.map (fun c => divConst c k)) := by
  unfold deriveScaled
  rw [h]
  exact getCol_setCol_same _ _ _

theorem getCol_deriveDatetime_other (df : DataFrame) (rawc cleanc : String)
    (c : String) (h : c ≠ cleanc) :
    getCol (deriveDatetime df rawc cleanc) c = getCol df c := by
  unfold deriveDatetime
  cases hr : getCol df rawc with
  | none => rfl
  | some v => exact getCol_setCol_other _ _ _ _ h

theorem getCol_derive_timestamps_other (df : DataFrame) (c : String)
    (h1 : c ≠ "start_time_gmt") (h2 : c ≠ "start_time_local")
    (h3 : c ≠ "begin_time") :
    getCol (derive_timestamps df) c = getCol df c := by
  unfold derive_timestamps
  rw [getCol_deriveDatetime_other _ _ _ _ h3,
    getCol_deriveDatetime_other _ _ _ _ h2,
    getCol_deriveDatetime_other _ _ _ _ h1]

theorem getCol_derive_durations_other (df : DataFrame) (c : String)
    (h1 : c ≠ "duration_minutes") (h2 : c ≠ "elapsed_minutes")
    (h3 : c ≠ "moving_minutes") :
    getCol (derive_durations df) c = getCol df c := by
  unfold derive_durations
  rw [getCol_deriveScaled_other _ _ _ _ _ h3,
    getCol_deriveScaled_other _ _ _ _ _ h2,
    getCol_deriveScaled_other _ _ _ _ _ h1]

theorem getCol_derive_durations_minutes (df : DataFrame) (v : List Cell)
    (h : getCol df "duration" = some v) :
    getCol (derive_durations df) "duration_minutes" =
      some (v.map (fun c => divConst c 60000)) := by
  unfold derive_durations
  rw [getCol_deriveScaled_other _ _ _ _ _ (by decide),
    getCol_deriveScaled_other _ _ _ _ _ (by decide)]
  exact getCol_deriveScaled_same _ _ _ _ _ h

theorem getCol_derive_distance_other (df : DataFrame) (c : String)
    (h1 : c ≠ "distance_km") (h2 : c ≠ "distance_mi") :
    getCol (derive_distance df) c = getCol df c := by
  unfold derive_distance
  cases hr : getCol df "distance" with
  | none => rfl
  | some v =>
    rw [getCol_setCol_other _ _ _ _ h2, getCol_setCol_other _ _ _ _ h1]

theorem getCol_derive_distance_km (df : DataFrame) (v : List Cell)
    (h : getCol df "distance" = some v) :
    getCol (derive_distance df) "distance_km" =
      some (v.map (fun c => divConst c 100000)) := by
  unfold derive_distance
  rw [h]
  rw [getCol_setCol_other _ _ _ _ (by decide)]
  exact getCol_setCol_same _ _ _

theorem getCol_derive_distance_mi (df : DataFrame) (v : List Cell)
    (h : getCol df "distance" = some v) :
    getCol (derive_distance df) "distance_mi" =
      some ((v.map (fun c => divConst c 100000)).map
        (fun c => mulConst c (621371 / 1000000))) := by
  unfold derive_distance
  rw [h]
  exact getCol_setCol_same _ _ _

theorem getCol_derive_speed_other (df : DataFrame) (c : String)
    (h : c ≠ "avg_speed_mph") :
    getCol (derive_speed df) c = getCol df c := by
  unfold derive_speed
  cases hr : getCol df "avgSpeed" with
  | none => rfl
  | some v => exact getCol_setCol_other _ _ _ _ h

theorem getCol_derive_calories_per_min_other (df : DataFrame) (c : String)
    (h : c ≠ "calories_per_min") :
    getCol (derive_calories_per_min df) c = getCol df c := by
  unfold derive_calories_per_min
  cases h1 : getCol df "calories" with
  | none => rfl
  | some cal =>
    cases h2 : getCol df "duration_minutes" with
    | none => rfl
    | some dur => exact getCol_setCol_other _ _ _ _ h

theorem getCol_derive_calories_per_min_same (df : DataFrame)
    (cal dur : List Cell) (h1 : getCol df "calories" = some cal)
    (h2 : getCol df "duration_minutes" = some dur) :
    getCol (derive_calories_per_min df) "calories_per_min" =
      some (List.zipWith (fun a b => seriesDiv a (replaceZeroNA b)) cal dur) := by
  unfold derive_calories_per_min
  rw [h1, h2]
  exact getCol_setCol_same _ _ _

theorem getCol_selectCols (df : DataFrame) (names : List String)
    (c : String) :
    getCol (selectCols df names) c =
      if names.contains c then getCol df c else none := by
  induction names with
  | nil => rfl
  | cons n ns ih =>
    show getCol
        (match getCol df n with
        | some v => (n, v) :: selectCols df ns
        | none => selectCols df ns) c =
      if (n :: ns).contains c = true then getCol df c else none

    cases hn : getCol df n with
    | none =>
      rw [ih]
      by_cases hnc : n = c
      · subst hnc
        rw [List.contains_cons, beq_self_eq_true, Bool.true_or,
          if_pos rfl]
        by_cases hcc : ns.contains n
        · rw [if_pos hcc]
        · rw [if_neg hcc, hn]
      · rw [List.contains_cons]
        have hb : (c == n) = false := by
          rw [beq_eq_false_iff_ne]
          exact fun hx => hnc hx.symm
        rw [hb, Bool.false_or]
    | some v =>
      rw [getCol_cons]
      by_cases hnc : n = c
      · subst hnc
        rw [if_pos rfl, List.contains_cons, beq_self_eq_true,
          Bool.true_or, if_pos rfl, hn]
      · rw [if_neg hnc, ih, List.contains_cons]
        have hb : (c == n) = false := by
          rw [beq_eq_false_iff_ne]
          exact fun hx => hnc hx.symm
        rw [hb, Bool.false_or]

theorem getCol_reorder_columns (df : DataFrame) (c : String) :
    getCol (reorder_columns df) c = getCol df c := by
  unfold reorder_columns
  rw [getCol_selectCols]
  by_cases hc : hasCol df c
  · have hmemdf : c ∈ colNames df := (hasCol_iff_mem_colNames df c).mp hc
    have hcon :
        ((preferred_order.filter (fun x => hasCol df x)) ++
          ((colNames df).filter
            (fun x => !((preferred_order.filter (fun y => hasCol df y)).contains x)))).contains c = true := by
      rw [contains_iff_mem, List.mem_append]
      by_cases hp : (preferred_order.filter (fun x => hasCol df x)).contains c
      · exact Or.inl ((contains_iff_mem _ _).mp hp)
      · refine Or.inr (List.mem_filter.mpr ⟨hmemdf, ?_⟩)
        rw [Bool.not_eq_true']
        exact Bool.eq_false_iff.mpr hp
    rw [if_pos hcon]
  · rw [getCol_eq_none df c hc]
    by_cases hcon : ((preferred_order.filter (fun x => hasCol df x)) ++
        ((colNames df).filter
          (fun x => !((preferred_order.filter (fun y => hasCol df y)).contains x)))).contains c
    · rw [if_pos hcon]
    · rw [if_neg hcon]

/-! ## Claim C9 -/

/-- C9: when the raw centimeter `distance` column is present,
`build_clean_dataframe` derives `distance_km` as `distance / 100000` and
`distance_mi` as `distance_km * 0.621371`, rowwise (float arithmetic
idealised over ℚ); and the tidy stage never mutates these derived columns —
whenever `distance_mi` survives tidying its values are still exactly the
derived ones. -/
theorem distance_conversions (df : DataFrame) (v : List Cell)
    (h : getCol df "distance" = some v) :
    getCol (build_clean_dataframe df) "distance_km" =
      some (v.map (fun c => divConst c 100000)) ∧
    getCol (build_clean_dataframe df) "distance_mi" =
      some ((v.map (fun c => divConst c 100000)).map
        (fun c => mulConst c (621371 / 1000000))) ∧
    (∀ out w, tidy_dataframe (build_clean_dataframe df) = .ok out →
      getCol out "distance_mi" = some w →
      w = (v.map (fun c => divConst c 100000)).map
        (fun c => mulConst c (621371 / 1000000))) := by
  have h1 : getCol
      (derive_durations (derive_timestamps (dropCols df noise_cols)))
      "distance" = some v := by
    rw [getCol_derive_durations_other _ _ (by decide) (by decide) (by decide),
      getCol_derive_timestamps_other _ _ (by decide) (by decide) (by decide),
      getCol_dropCols, if_neg (by decide)]
    exact h
  have hkm : getCol (build_clean_dataframe df) "distance_km" =
      some (v.map (fun c => divConst c 100000)) := by
    unfold build_clean_dataframe
    rw [getCol_reorder_columns,
      getCol_derive_calories_per_min_other _ _ (by decide),
      getCol_derive_speed_other _ _ (by decide)]
    exact getCol_derive_distance_km _ _ h1
  have hmi : getCol (build_clean_dataframe df) "distance_mi" =
      some ((v.map (fun c => divConst c 100000)).map
        (fun c => mulConst c (621371 / 1000000))) := by
    unfold build_clean_dataframe
    rw [getCol_reorder_columns,
      getCol_derive_calories_per_min_other _ _ (by decide),
      getCol_derive_speed_other _ _ (by decide)]
    exact getCol_derive_distance_mi _ _ h1
  refine ⟨hkm, hmi, ?_⟩
  intro out w ht hw
  obtain ⟨df2, hco, hout⟩ := (tidy_dataframe_ok _ out).mp ht
  obtain ⟨-, hg⟩ := coerce_id_cols_ok _ _ hco
  rw [hout, getCol_dropCols] at hw
  by_cases hcon : ((sparse_cols (build_clean_dataframe df) ++
      constant_cols (build_clean_dataframe df)).contains "distance_mi")
  · rw [if_pos hcon] at hw
    cases hw
  · rw [if_neg hcon, hg _ (by decide), getCol_coerce_boolean_like,
      if_neg (by decide), hmi] at hw
    injection hw with hw
    exact hw.symm

/-- Concrete run of `distance_conversions`: a 10000 cm distance becomes
0.1 km and 0.0621371 miles. -/
theorem distance_conversions_witness :
    getCol (build_clean_dataframe [("distance", [Cell.num 10000])])
      "distance_km" = some [Cell.num (1 / 10)] ∧
    getCol (build_clean_dataframe [("distance", [Cell.num 10000])])
      "distance_mi" = some [Cell.num (621371 / 10000000)] := by
  have h := distance_conversions [("distance", [Cell.num 10000])]
    [Cell.num 10000] rfl
  constructor
  · rw [h.1]
    with_unfolding_all rfl
  · rw [h.2.1]
    with_unfolding_all rfl

/-! ## Claim C2 -/

/-- A cell that is numeric or missing — the only shapes occurring in the
numeric measure columns. -/
def numOrNull (c : Cell) : Bool :=
  match c with
  | .num _ => true
  | .pynone => true
  | .nan => true
  | .dnull => true
  | _ => false

/-- C2 (amended): when both `calories` and the raw `duration` column are
present, `calories_per_min` is the elementwise quotient of `calories` by
`duration_minutes` after zero durations are replaced by `pd.NA`; over
numeric-or-missing cells the result is null exactly when the duration is
null or zero or the calories value is null (a null numerator also
propagates, which the original claim missed), and equals
calories/duration otherwise. -/
theorem calories_per_min_spec (df : DataFrame) (cal durRaw : List Cell)
    (h1 : getCol df "calories" = some cal)
    (h2 : getCol df "duration" = some durRaw) :
    getCol (build_clean_dataframe df) "calories_per_min" =
      some (List.zipWith (fun a b => seriesDiv a (replaceZeroNA b))
        cal (durRaw.map (fun c => divConst c 60000))) ∧
    (∀ a b, numOrNull a = true → numOrNull b = true →
      (Cell.isna (seriesDiv a (replaceZeroNA b)) = true ↔
        (Cell.isna b = true ∨ b = Cell.num 0 ∨ Cell.isna a = true))) ∧
    (∀ x y : ℚ, y ≠ 0 →
      seriesDiv (Cell.num x) (replaceZeroNA (Cell.num y)) =
        Cell.num (x / y)) := by
  refine ⟨?_, ?_, ?_⟩
  · have hcal : getCol
        (derive_speed (derive_distance (derive_durations
          (derive_timestamps (dropCols df noise_cols))))) "calories" =
        some cal := by
      rw [getCol_derive_speed_other _ _ (by decide),
        getCol_derive_distance_other _ _ (by decide) (by decide),
        getCol_derive_durations_other _ _ (by decide) (by decide) (by decide),
        getCol_derive_timestamps_other _ _ (by decide) (by decide) (by decide),
        getCol_dropCols, if_neg (by decide)]
      exact h1
    have hdur : getCol
        (derive_speed (derive_distance (derive_durations
          (derive_timestamps (dropCols df noise_cols))))) "duration_minutes" =
        some (durRaw.map (fun c => divConst c 60000)) := by
      rw [getCol_derive_speed_other _ _ (by decide),
        getCol_derive_distance_other _ _ (by decide) (by decide)]
      apply getCol_derive_durations_minutes
      rw [getCol_derive_timestamps_other _ _ (by decide) (by decide) (by decide),
        getCol_dropCols, if_neg (by decide)]
      exact h2
    unfold build_clean_dataframe
    rw [getCol_reorder_columns]
    exact getCol_derive_calories_per_min_same _ _ _ hcal hdur
  · intro a b ha hb
    cases b with
    | num q =>
      by_cases hq : q = 0
      · subst hq
        cases a <;> simp [seriesDiv, replaceZeroNA, Cell.isna]
      · cases a <;>
          simp_all [seriesDiv, replaceZeroNA, Cell.isna, numOrNull, hq]
    | pynone => cases a <;> simp_all [seriesDiv, replaceZeroNA, Cell.isna, numOrNull]
    | nan => cases a <;> simp_all [seriesDiv, replaceZeroNA, Cell.isna, numOrNull]
    | dnull => cases a <;> simp_all [seriesDiv, replaceZeroNA, Cell.isna, numOrNull]
    | boolv b => simp [numOrNull] at hb
    | strv s => simp [numOrNull] at hb
    | dtime ms => simp [numOrNull] at hb
    | nested n => simp [numOrNull] at hb
  · intro x y hy
    simp [seriesDiv, replaceZeroNA, Cell.isna, hy]

/-- Concrete run of `calories_per_min_spec`: 100 calories over a 300000 ms
(5 minute) duration gives 20 calories per minute. -/
theorem calories_per_min_spec_witness :
    getCol (build_clean_dataframe
        [("calories", [Cell.num 100]), ("duration", [Cell.num 300000])])
      "calories_per_min" = some [Cell.num 20] := by
  have h := calories_per_min_spec
    [("calories", [Cell.num 100]), ("duration", [Cell.num 300000])]
    [Cell.num 100] [Cell.num 300000] rfl (by with_unfolding_all rfl)
  rw [h.1]
  with_unfolding_all rfl

/-- C2 counterexample: with `calories` missing (NaN) on a row whose raw
duration is 300000 ms, `calories_per_min` is null although
`duration_minutes` equals 5, which is neither null nor zero — refuting the
claimed biconditional "null exactly when duration_minutes is null or
zero". -/
theorem calories_per_min_null_calories :
    getCol (build_clean_dataframe
        [("calories", [Cell.nan]), ("duration", [Cell.num 300000])])
      "calories_per_min" = some [Cell.nan] ∧
    getCol (build_clean_dataframe
        [("calories", [Cell.nan]), ("duration", [Cell.num 300000])])
      "duration_minutes" = some [Cell.num 5] ∧
    Cell.isna Cell.nan = true ∧
    Cell.isna (Cell.num 5) = false ∧
    (Cell.num 5 = Cell.num 0 → False) := by
  refine ⟨by with_unfolding_all rfl, by with_unfolding_all rfl, rfl, rfl, ?_⟩
  intro hx
  have h5 : (5 : ℚ) = 0 := by injection hx
  norm_num at h5

/-! ## Claim C3 -/

/-- C3 (amended): for every boolean-like column present, `astype(bool)`
coerces elementwise by Python truthiness and never raises on missing
values; a missing value stored as `None` coerces to false, but a missing
value stored as float NaN coerces to true (so the claimed "every missing
value becomes false" holds only for the `None` flavor). -/
theorem boolean_like_coercion (df : DataFrame) (c : String) (v : List Cell)
    (hc : c ∈ boolean_like) (hv : getCol df c = some v) :
    getCol (coerce_boolean_like df) c =
      some (v.map (fun x => Cell.boolv x.pyBool)) ∧
    Cell.pyBool Cell.pynone = false ∧ Cell.pyBool Cell.nan = true := by
  refine ⟨?_, rfl, rfl⟩
  rw [getCol_coerce_boolean_like, if_pos ((contains_iff_mem _ _).mpr hc), hv]
  rfl

/-- Concrete run of `boolean_like_coercion` on a `parent` column holding a
NaN, a None and a true: the coercion yields [true, false, true]. -/
theorem boolean_like_coercion_witness :
    getCol (coerce_boolean_like
        [("parent", [Cell.nan, Cell.pynone, Cell.boolv true])]) "parent" =
      some [Cell.boolv true, Cell.boolv false, Cell.boolv true] := by
  have h := boolean_like_coercion
    [("parent", [Cell.nan, Cell.pynone, Cell.boolv true])] "parent"
    [Cell.nan, Cell.pynone, Cell.boolv true] (by decide) rfl
  rw [h.1]
  rfl

/-- C3 counterexample: a missing `parent` value stored as float NaN is
coerced to `True` by `astype(bool)` (Python truthiness of nan), not to
`False` as claimed. -/
theorem boolean_missing_truthy :
    tidy_dataframe [("parent", [Cell.nan, Cell.boolv false])] =
      .ok [("parent", [Cell.boolv true, Cell.boolv false])] ∧
    Cell.isna Cell.nan = true :=
  ⟨by with_unfolding_all rfl, rfl⟩

/-! ## Claim C8 -/

theorem coerce_boolean_like_id_when_absent (df : DataFrame)
    (hb : ∀ p ∈ df, p.1 ∉ boolean_like) : coerce_boolean_like df = df := by
  induction df with
  | nil => rfl
  | cons p ps ih =>
    unfold coerce_boolean_like at ih ⊢
    rw [List.map_cons,
      if_neg (fun hx => hb p (List.mem_cons_self p ps)
        ((contains_iff_mem _ _).mp hx)),
      ih (fun q hq => hb q (List.mem_cons_of_mem _ hq))]

theorem coerce_id_cols_id_when_absent (df : DataFrame)
    (hi : ∀ p ∈ df, p.1 ∉ id_cols) : coerce_id_cols df = .ok df := by
  induction df with
  | nil => rfl
  | cons p ps ih =>
    rw [coerce_id_cols_cons]
    have hp : coerceIdEntry p = .ok p := by
      unfold coerceIdEntry
      rw [if_neg (fun hx => hi p (List.mem_cons_self p ps)
        ((contains_iff_mem _ _).mp hx))]
    rw [hp, ih (fun q hq => hi q (List.mem_cons_of_mem _ hq))]
    rfl

theorem dropCols_nil (df : DataFrame) : dropCols df [] = df := by
  unfold dropCols
  induction df with
  | nil => rfl
  | cons p ps ih =>
    have hcond : (!([] : List String).contains p.1) = true := rfl
    rw [List.filter_cons, if_pos hcond, ih]

theorem mem_sparse_cols_of (df : DataFrame) (p : String × List Cell)
    (hp : p ∈ df) (hcond : (9 : ℚ) / 10 < nullFrac p.2) :
    p.1 ∈ sparse_cols df := by
  unfold sparse_cols
  exact List.mem_map.mpr
    ⟨p, List.mem_filter.mpr ⟨hp, by rw [decide_eq_true_eq]; exact hcond⟩, rfl⟩

theorem mem_constant_cols_of (df : DataFrame) (p : String × List Cell)
    (hp : p ∈ df) (h1 : hasUnhashable p.2 = false)
    (h2 : nuniqueDropnaFalse p.2 = 1) : p.1 ∈ constant_cols df := by
  unfold constant_cols
  refine List.mem_map.mpr ⟨p, List.mem_filter.mpr ⟨hp, ?_⟩, rfl⟩
  rw [Bool.and_eq_true, Bool.not_eq_true', decide_eq_true_eq]
  exact ⟨h1, h2⟩

theorem sparse_cols_nil_of (df : DataFrame)
    (h : ∀ p ∈ df, ¬ ((9 : ℚ) / 10 < nullFrac p.2)) :
    sparse_cols df = [] := by
  unfold sparse_cols
  rw [List.filter_eq_nil_iff.mpr ?_, List.map_nil]
  intro p hp
  rw [decide_eq_true_eq]
  exact h p hp

theorem constant_cols_nil_of (df : DataFrame)
    (h : ∀ p ∈ df, hasUnhashable p.2 = false → nuniqueDropnaFalse p.2 ≠ 1) :
    constant_cols df = [] := by
  unfold constant_cols
  rw [List.filter_eq_nil_iff.mpr ?_, List.map_nil]
  intro p hp
  rw [Bool.and_eq_true, Bool.not_eq_true', decide_eq_true_eq]
  rintro ⟨hu, hn⟩
  exact h p hp hu hn

/-- C8 (amended): `tidy_dataframe` is idempotent on frames containing none
of the boolean-like or identifier columns; in general the type coercions
can collapse distinct values, letting a second application remove further
columns, as `tidy_not_idempotent` shows. -/
theorem tidy_idempotent_no_coerced (df out : DataFrame)
    (hb : ∀ p ∈ df, p.1 ∉ boolean_like)
    (hi : ∀ p ∈ df, p.1 ∉ id_cols)
    (h : tidy_dataframe df = .ok out) :
    tidy_dataframe out = .ok out := by
  obtain ⟨df2, hco, hout⟩ := (tidy_dataframe_ok df out).mp h
  rw [coerce_boolean_like_id_when_absent df hb,
    coerce_id_cols_id_when_absent df hi] at hco
  injection hco with hco
  subst hco
  have hsub : ∀ p, p ∈ out → p ∈ df := by
    intro p hp
    rw [hout] at hp
    exact (List.mem_filter.mp hp).1
  have hnotflag : ∀ p, p ∈ out →
      ¬ ((sparse_cols df ++ constant_cols df).contains p.1 = true) := by
    intro p hp
    rw [hout] at hp
    have hx := (List.mem_filter.mp hp).2
    rw [Bool.not_eq_true'] at hx
    rw [hx]
    exact Bool.false_ne_true
  have hs : sparse_cols out = [] := by
    apply sparse_cols_nil_of
    intro p hp hcond
    exact hnotflag p hp ((contains_iff_mem _ _).mpr
      (List.mem_append_left _ (mem_sparse_cols_of df p (hsub p hp) hcond)))
  have hk : constant_cols out = [] := by
    apply constant_cols_nil_of
    intro p hp hu hn
    exact hnotflag p hp ((contains_iff_mem _ _).mpr
      (List.mem_append_right _ (mem_constant_cols_of df p (hsub p hp) hu hn)))
  refine (tidy_dataframe_ok out out).mpr ⟨out, ?_, ?_⟩
  · rw [coerce_boolean_like_id_when_absent out
      (fun q hq => hb q (hsub q hq))]
    exact coerce_id_cols_id_when_absent out (fun q hq => hi q (hsub q hq))
  · rw [hs, hk]
    exact (dropCols_nil out).symm

/-- Concrete run of `tidy_idempotent_no_coerced` on a two-row string
column: tidying its own output returns that output. -/
theorem tidy_idempotent_no_coerced_witness :
    tidy_dataframe [("name", [Cell.strv "a", Cell.strv "b"])] =
      .ok [("name", [Cell.strv "a", Cell.strv "b"])] := by
  have h0 : tidy_dataframe [("name", [Cell.strv "a", Cell.strv "b"])] =
      .ok [("name", [Cell.strv "a", Cell.strv "b"])] := by
    with_unfolding_all rfl
  exact tidy_idempotent_no_coerced _ _ (by decide) (by decide) h0

/-- C8 counterexample: the frame whose boolean-like column `parent` holds
[True, NaN] survives one tidy pass (two distinct values pre-coercion,
null fraction one half) and is coerced to [True, True]; a second
application then detects a constant column and removes it — so
`tidy_dataframe` applied to its own output does not return that output. -/
theorem tidy_not_idempotent :
    tidy_dataframe [("parent", [Cell.boolv true, Cell.nan])] =
      .ok [("parent", [Cell.boolv true, Cell.boolv true])] ∧
    tidy_dataframe [("parent", [Cell.boolv true, Cell.boolv true])] =
      .ok ([] : DataFrame) ∧
    ((Except.ok ([] : DataFrame) : Except String DataFrame) ≠
      Except.ok [("parent", [Cell.boolv true, Cell.boolv true])]) := by
  refine ⟨by with_unfolding_all rfl, by with_unfolding_all rfl, ?_⟩
  intro hx
  injection hx with hx
  exact List.noConfusion hx

/-! ## read_activity_records (src/main.py lines 10-22) -/

/-- A parsed JSON value, as produced by `json.loads`. -/
inductive JsonValue where
  | null
  | boolj (b : Bool)
  | numj (q : ℚ)
  | strj (s : String)
  | arr (xs : List JsonValue)
  | obj (fields : List (String × JsonValue))

/-- Dictionary lookup (`key in d` and `d[key]`); Python dict keys are
unique, the first match is taken. -/
def lookupField : List (String × JsonValue) → String → Option JsonValue
  | [], _ => none
  | f :: fs, k => if f.1 = k then some f.2 else lookupField fs k

def wrapper_key : String := "summarizedActivitiesExport"

/-- src/main.py `read_activity_records`, modelled on the parsed JSON
content (the file read and `json.loads` are pandas-free standard library
steps outside the embedding): a list whose truthy (non-empty) head is a
dict containing the wrapper key yields that value; any other list is
returned unchanged; a dict containing the wrapper key yields its value;
everything else raises `ValueError`. -/
def read_activity_records (raw : JsonValue) : Except String JsonValue :=
  match raw with
  | .arr xs =>
    match xs with
    | .obj fields :: _ =>
      match lookupField fields wrapper_key with
      | some v => .ok v
      | none => .ok (.arr xs)
    | _ => .ok (.arr xs)
  | .obj fields =>
    match lookupField fields wrapper_key with
    | some v => .ok v
    | none => .error "Unrecognized summarized activities format"
  | _ => .error "Unrecognized summarized activities format"

/-! ## Claim C5 -/

/-- C5: `read_activity_records` returns the wrapper value of the first
element for a sequence whose head is a mapping containing the wrapper
key; the sequence unchanged for every other sequence (empty, head not a
mapping, or head lacking the key); the wrapper value for a mapping
containing the key; and an unrecognized-format error with no partial
result for a mapping without the key and for every non-sequence,
non-mapping top-level value (numbers, strings, booleans, null). -/
theorem read_activity_records_shapes :
    (∀ fields rest v, lookupField fields wrapper_key = some v →
      read_activity_records (.arr (.obj fields :: rest)) = .ok v) ∧
    (∀ fields rest, lookupField fields wrapper_key = none →
      read_activity_records (.arr (.obj fields :: rest)) =
        .ok (.arr (.obj fields :: rest))) ∧
    (read_activity_records (.arr []) = .ok (.arr [])) ∧
    (∀ x xs, (∀ fields, x ≠ .obj fields) →
      read_activity_records (.arr (x :: xs)) = .ok (.arr (x :: xs))) ∧
    (∀ fields v, lookupField fields wrapper_key = some v →
      read_activity_records (.obj fields) = .ok v) ∧
    (∀ fields, lookupField fields wrapper_key = none →
      read_activity_records (.obj fields) =
        .error "Unrecognized summarized activities format") ∧
    (∀ q, read_activity_records (.numj q) =
      .error "Unrecognized summarized activities format") ∧
    (read_activity_records .null =
      .error "Unrecognized summarized activities format") ∧
    (∀ b, read_activity_records (.boolj b) =
      .error "Unrecognized summarized activities format") ∧
    (∀ s, read_activity_records (.strj s) =
      .error "Unrecognized summarized activities format") := by
  refine ⟨?_, ?_, rfl, ?_, ?_, ?_, fun q => rfl, rfl, fun b => rfl,
    fun s => rfl⟩
  · intro fields rest v h
    simp only [read_activity_records, h]
  · intro fields rest h
    simp only [read_activity_records, h]
  · intro x xs h
    cases x with
    | null => rfl
    | boolj b => rfl
    | numj q => rfl
    | strj s => rfl
    | arr ys => rfl
    | obj fields => exact absurd rfl (h fields)
  · intro fields v h
    simp only [read_activity_records, h]
  · intro fields h
    simp only [read_activity_records, h]

/-- Concrete runs of `read_activity_records_shapes` over each shape. -/
theorem read_activity_records_shapes_witness :
    read_activity_records
        (.arr [.obj [(wrapper_key, .arr [.numj 1])]]) =
      .ok (.arr [.numj 1]) ∧
    read_activity_records (.arr [.numj 2]) = .ok (.arr [.numj 2]) ∧
    read_activity_records (.obj [("other", .numj 3)]) =
      .error "Unrecognized summarized activities format" ∧
    read_activity_records (.numj 7) =
      .error "Unrecognized summarized activities format" := by
  refine ⟨read_activity_records_shapes.1 _ [] _ rfl,
    read_activity_records_shapes.2.2.2.1 _ _
      (fun fields h => JsonValue.noConfusion h),
    read_activity_records_shapes.2.2.2.2.2.1 _ ?_,
    read_activity_records_shapes.2.2.2.2.2.2.1 7⟩
  unfold lookupField
  rw [if_neg (by decide)]
  rfl

/-! ## exploration.py: drop_container_activities (lines 30-40) -/

/-- `df["sportType"].eq("MULTISPORT")` elementwise: missing and non-string
cells compare unequal. -/
def isMultisport (c : Cell) : Bool := c == Cell.strv "MULTISPORT"

/-- `df["parent"].fillna(False)` then use as a boolean mask: missing
values count as False; the column holds booleans after cleaning
(other values would go through truthiness in the bitwise or). -/
def parentFlag (c : Cell) : Bool :=
  if c.isna then false else c.pyBool

/-- Keep the rows where `mask` is false (`df.loc[~mask]`), applied to one
column of cells positionally. -/
def applyMask (mask : List Bool) (v : List Cell) : List Cell :=
  (List.zip mask v).filterMap (fun mc => if mc.1 then none else some mc.2)

/-- src/exploration.py `drop_container_activities`. When neither
`sportType` nor `parent` is present, `mask_container` keeps the plain
Python bool `False`; `~False` is the integer `-1` and `df.loc[-1]` raises
`KeyError` on the default integer index — modelled as the error result.
Otherwise the boolean mask marks rows whose sportType equals MULTISPORT
or whose parent flag is truthy (missing treated as false), and the rows
where the mask is true are dropped from every column. -/
def drop_container_activities (df : DataFrame) : Except String DataFrame :=
  if hasCol df "sportType" = false ∧ hasCol df "parent" = false then
    .error "KeyError: -1"
  else
    let n := nRows df
    let maskS :=
      match getCol df "sportType" with
      | some v => v.map isMultisport
      | none => List.replicate n false
    let maskP :=
      match getCol df "parent" with
      | some v => v.map parentFlag
      | none => List.replicate n false
    let mask := List.zipWith or maskS maskP
    .ok (df.map (fun p => (p.1, applyMask mask p.2)))

/-! ## Claim C6 -/

/-- C6: the claim is right that rows are dropped exactly when flagged
multisport or parent-truthy with missing parent treated as false — but
the claimed "no-op on tables lacking both columns" is where the code
slips: `mask_container = False` followed by `df.loc[~mask_container]`
evaluates `df.loc[-1]` and raises `KeyError`. This theorem evaluates the
model at that failing input. -/
theorem drop_container_missing_columns_keyerror :
    drop_container_activities [("x", [Cell.num 1])] =
      .error "KeyError: -1" := by
  with_unfolding_all rfl

/-! ## exploration.py: compute_stats (lines 49-81) -/

/-- The numeric values of a column, nulls skipped — pandas reductions
default to `skipna=True` (non-numeric cells do not occur in these measure
columns and are skipped as well). -/
def numsOf (v : List Cell) : List ℚ :=
  v.filterMap (fun c => match c with | .num q => some q | _ => none)

/-- `Series.fillna(0).sum()`: over numeric-or-missing cells this is the
sum of the numeric values. -/
def sumFillna0 (v : List Cell) : ℚ := (numsOf v).sum

/-- `Series.mean()`: NaN (none) when no numeric value is present. -/
def meanOpt (v : List Cell) : Option ℚ :=
  let ns := numsOf v
  if ns.length = 0 then none else some (ns.sum / ns.length)

def insertSorted (x : ℚ) : List ℚ → List ℚ
  | [] => [x]
  | y :: ys => if x ≤ y then x :: y :: ys else y :: insertSorted x ys

def sortQ (l : List ℚ) : List ℚ := l.foldr insertSorted []

/-- `Series.median()`: the middle value, or the mean of the two middle
values; NaN (none) on an empty set of numeric values. -/
def medianOpt (v : List Cell) : Option ℚ :=
  let s := sortQ (numsOf v)
  let n := s.length
  if n = 0 then none
  else if n % 2 = 1 then some (s.getD (n / 2) 0)
  else some ((s.getD (n / 2 - 1) 0 + s.getD (n / 2) 0) / 2)

/-- `Series.max()` (skipna): NaN (none) when no numeric value remains. -/
def maxOpt (v : List Cell) : Option ℚ :=
  match numsOf v with
  | [] => none
  | x :: xs => some (xs.foldl max x)

/-- Python `round(q)` rounds half to even (banker's rounding). -/
def roundHalfEven (q : ℚ) : ℤ :=
  let f := ⌊q⌋
  if q - f < 1 / 2 then f
  else if q - f > 1 / 2 then f + 1
  else if f % 2 = 0 then f else f + 1

/-- Python `round(q, d)`. -/
def roundTo (q : ℚ) (d : ℕ) : ℚ :=
  (roundHalfEven (q * 10 ^ d) : ℚ) / 10 ^ d

/-- Python `int(q)` truncates toward zero; `int(nan)` raises ValueError,
handled at the call site. -/
def truncInt (q : ℚ) : ℤ := if 0 ≤ q then ⌊q⌋ else ⌈q⌉

/-- The datetime values of a column; `NaT` and anything non-datetime are
skipped, as by `dropna` on a datetime column. -/
def dtimesOf (v : List Cell) : List ℚ :=
  v.filterMap (fun c => match c with | .dtime ms => some ms | _ => none)

def minQ? : List ℚ → Option ℚ
  | [] => none
  | x :: xs => some (xs.foldl min x)

def maxQ? : List ℚ → Option ℚ
  | [] => none
  | x :: xs => some (xs.foldl max x)

/-- Millisecond epoch to calendar day, standing in for
`.date().isoformat()` (calendar text formatting is not modelled, only the
day identity). -/
def dayOf (ms : ℚ) : ℤ := ⌊ms / 86400000⌋

/-- Stable insertion by descending count (`value_counts` sorts by count
descending, ties kept in first-encounter order). -/
def insertByCount (x : Cell × ℕ) : List (Cell × ℕ) → List (Cell × ℕ)
  | [] => [x]
  | y :: ys => if x.2 ≥ y.2 then x :: y :: ys else y :: insertByCount x ys

/-- `Series.value_counts()`: counts of the non-null values, descending by
count, stable by first appearance. -/
def valueCounts (v : List Cell) : List (Cell × ℕ) :=
  let vals := v.filter (fun c => !c.isna)
  ((dedupF vals).map (fun k => (k, vals.count k))).foldr insertByCount []

/-- A value in the summary statistics bundle. -/
inductive SVal where
  | intv (n : ℤ)
  | ratv (q : ℚ)
  | nanv
  | datePair (a b : ℤ)
  | countsv (l : List (Cell × ℕ))
  | noneV
  deriving DecidableEq

/-- src/exploration.py `compute_stats`: each entry guarded by the presence
of its source column; `avg_heart_rate` and `max_heart_rate` both live
under the `avgHr` guard, `max_heart_rate` getting the placeholder `None`
when `maxHr` is absent, and `int(...)` raising when the `maxHr` maximum
is NaN (every value missing). Rounding follows Python `round` (half to
even); `int()` truncates toward zero. -/
def compute_stats (df : DataFrame) :
    Except String (List (String × SVal)) := do
  let e1 := [("activity_count", SVal.intv (nRows df))]
  let e2 :=
    match getCol df "start_time_local" with
    | some v =>
      match minQ? (dtimesOf v), maxQ? (dtimesOf v) with
      | some a, some b => [("date_range", SVal.datePair (dayOf a) (dayOf b))]
      | _, _ => []
    | none => []
  let e3 :=
    match getCol df "distance_mi" with
    | some v =>
      [("total_miles", SVal.ratv (roundTo (sumFillna0 v) 2)),
       ("median_miles",
         match medianOpt v with
         | some m => SVal.ratv (roundTo m 2)
         | none => SVal.nanv)]
    | none => []
  let e4 :=
    match getCol df "duration_minutes" with
    | some v =>
      [("total_hours", SVal.ratv (roundTo (sumFillna0 v / 60) 2)),
       ("median_duration_min",
         match medianOpt v with
         | some m => SVal.ratv (roundTo m 2)
         | none => SVal.nanv)]
    | none => []
  let e5 :=
    match getCol df "calories" with
    | some v => [("total_calories", SVal.intv (truncInt (sumFillna0 v)))]
    | none => []
  let e6 ←
    match getCol df "avgHr" with
    | some v =>
      let a :=
        [("avg_heart_rate",
          match meanOpt v with
          | some m => SVal.ratv (roundTo m 1)
          | none => SVal.nanv)]
      match getCol df "maxHr" with
      | some w =>
        match maxOpt w with
        | some m =>
          Except.ok (a ++ [("max_heart_rate", SVal.intv (truncInt m))])
        | none => Except.error "cannot convert float NaN to integer"
      | none => Except.ok (a ++ [("max_heart_rate", SVal.noneV)])
    | none => Except.ok []
  let e7 :=
    match getCol df "sport_group" with
    | some v => [("top_sports", SVal.countsv ((valueCounts v).take 5))]
    | none => []
  pure (e1 ++ e2 ++ e3 ++ e4 ++ e5 ++ e6 ++ e7)

/-! ## Claim C4 -/

/-- C4 (amended): on success the bundle's keys are exactly:
`activity_count` always; `date_range` iff `start_time_local` is present
with at least one non-null value; the distance, duration, calories and
top-sports entries iff their source column exists; and `avg_heart_rate`
together with `max_heart_rate` iff `avgHr` is present — `max_heart_rate`
is governed by `avgHr`, present with a `None` placeholder when `maxHr` is
absent, and omitted when `avgHr` is absent even if `maxHr` exists (the
original claim's "present iff its own source column exists" fails on
those two corners). -/
theorem compute_stats_keys (df : DataFrame) (st : List (String × SVal))
    (h : compute_stats df = .ok st) :
    st.map (fun e => e.1) =
      ["activity_count"] ++
      (match getCol df "start_time_local" with
       | some v => if dtimesOf v = [] then [] else ["date_range"]
       | none => []) ++
      (if hasCol df "distance_mi" then ["total_miles", "median_miles"]
       else []) ++
      (if hasCol df "duration_minutes" then
        ["total_hours", "median_duration_min"] else []) ++
      (if hasCol df "calories" then ["total_calories"] else []) ++
      (if hasCol df "avgHr" then ["avg_heart_rate", "max_heart_rate"]
       else []) ++
      (if hasCol df "sport_group" then ["top_sports"] else []) := by
  have hseg2 :
      (match getCol df "start_time_local" with
        | some v =>
          match minQ? (dtimesOf v), maxQ? (dtimesOf v) with
          | some a, some b =>
            [("date_range", SVal.datePair (dayOf a) (dayOf b))]
          | _, _ => []
        | none => ([] : List (String × SVal))).map
          (fun e : String × SVal => e.1) =
      (match getCol df "start_time_local" with
        | some v => if dtimesOf v = [] then [] else ["date_range"]
        | none => []) := by
    cases hg : getCol df "start_time_local" with
    | none => rfl
    | some v =>
      cases hd : dtimesOf v with
      | nil => simp [hd, minQ?, maxQ?]
      | cons x xs => simp [hd, minQ?, maxQ?]
  have hseg3 :
      (match getCol df "distance_mi" with
        | some v =>
          [("total_miles", SVal.ratv (roundTo (sumFillna0 v) 2)),
           ("median_miles",
             match medianOpt v with
             | some m => SVal.ratv (roundTo m 2)
             | none => SVal.nanv)]
        | none => ([] : List (String × SVal))).map
          (fun e : String × SVal => e.1) =
      (if hasCol df "distance_mi" then ["total_miles", "median_miles"]
       else []) := by
    cases hg : getCol df "distance_mi" with
    | none => simp [hasCol, hg]
    | some v => simp [hasCol, hg]
  have hseg4 :
      (match getCol df "duration_minutes" with
        | some v =>
          [("total_hours", SVal.ratv (roundTo (sumFillna0 v / 60) 2)),
           ("median_duration_min",
             match medianOpt v with
             | some m => SVal.ratv (roundTo m 2)
             | none => SVal.nanv)]
        | none => ([] : List (String × SVal))).map
          (fun e : String × SVal => e.1) =
      (if hasCol df "duration_minutes" then
        ["total_hours", "median_duration_min"] else []) := by
    cases hg : getCol df "duration_minutes" with
    | none => simp [hasCol, hg]
    | some v => simp [hasCol, hg]
  have hseg5 :
      (match getCol df "calories" with
        | some v => [("total_calories", SVal.intv (truncInt (sumFillna0 v)))]
        | none => ([] : List (String × SVal))).map
          (fun e : String × SVal => e.1) =
      (if hasCol df "calories" then ["total_calories"] else []) := by
    cases hg : getCol df "calories" with
    | none => simp [hasCol, hg]
    | some v => simp [hasCol, hg]
  have hseg7 :
      (match getCol df "sport_group" with
        | some v => [("top_sports", SVal.countsv ((valueCounts v).take 5))]
        | none => ([] : List (String × SVal))).map
          (fun e : String × SVal => e.1) =
      (if hasCol df "sport_group" then ["top_sports"] else []) := by
    cases hg : getCol df "sport_group" with
    | none => simp [hasCol, hg]
    | some v => simp [hasCol, hg]
  unfold compute_stats at h
  simp only [Bind.bind, Except.bind, pure, Except.pure] at h
  cases hA : getCol df "avgHr" with
  | none =>
    simp only [hA, Except.ok.injEq] at h
    subst h
    simp only [List.map_append, hseg2, hseg3, hseg4, hseg5, hseg7,
      List.map_cons, List.map_nil, hasCol, hA, Option.isSome_none,
      Bool.false_eq_true, if_false, List.append_nil]
  | some v =>
    cases hM : getCol df "maxHr" with
    | none =>
      simp only [hA, hM, Except.ok.injEq] at h
      subst h
      simp only [List.map_append, hseg2, hseg3, hseg4, hseg5, hseg7,
        List.map_cons, List.map_nil, hasCol, hA, Option.isSome_some,
        if_true, List.nil_append]
      rfl
    | some w =>
      cases hX : maxOpt w with
      | none =>
        simp only [hA, hM, hX] at h
        exact Except.noConfusion h
      | some m =>
        simp only [hA, hM, hX, Except.ok.injEq] at h
        subst h
        simp only [List.map_append, hseg2, hseg3, hseg4, hseg5, hseg7,
          List.map_cons, List.map_nil, hasCol, hA, Option.isSome_some,
          if_true, List.nil_append]
        rfl

/-- Concrete run of `compute_stats_keys` with `avgHr` and `calories`
present and everything else absent. -/
theorem compute_stats_keys_witness :
    compute_stats [("avgHr", [Cell.num 100]), ("calories", [Cell.num 50])] =
      .ok [("activity_count", SVal.intv 1),
           ("total_calories", SVal.intv 50),
           ("avg_heart_rate", SVal.ratv 100),
           ("max_heart_rate", SVal.noneV)] ∧
    ([("activity_count", SVal.intv 1),
      ("total_calories", SVal.intv 50),
      ("avg_heart_rate", SVal.ratv 100),
      ("max_heart_rate", SVal.noneV)] : List (String × SVal)).map
        (fun e => e.1) =
      ["activity_count", "total_calories", "avg_heart_rate",
       "max_heart_rate"] := by
  have h : compute_stats
      [("avgHr", [Cell.num 100]), ("calories", [Cell.num 50])] =
      .ok [("activity_count", SVal.intv 1),
           ("total_calories", SVal.intv 50),
           ("avg_heart_rate", SVal.ratv 100),
           ("max_heart_rate", SVal.noneV)] := by
    with_unfolding_all rfl
  refine ⟨h, ?_⟩
  have hk := compute_stats_keys _ _ h
  rw [hk]
  with_unfolding_all rfl

/-- C4 counterexample: with `avgHr` present and `maxHr` absent, the
returned bundle contains the `max_heart_rate` entry with a `None`
placeholder instead of omitting the entry as the claim states. -/
theorem compute_stats_placeholder_maxhr :
    compute_stats [("avgHr", [Cell.num 100])] =
      .ok [("activity_count", SVal.intv 1),
           ("avg_heart_rate", SVal.ratv 100),
           ("max_heart_rate", SVal.noneV)] ∧
    hasCol [("avgHr", [Cell.num 100])] "maxHr" = false :=
  ⟨by with_unfolding_all rfl, rfl⟩

/-! ## Claim C10 -/

/-- C10: `compute_stats` is not total over tables containing its named
columns — with `avgHr` present and `maxHr` present but all-null, the
maximum is NaN and `int(NaN)` raises ValueError, modelled as the error
result. -/
theorem compute_stats_raises_on_null_maxhr :
    compute_stats [("avgHr", [Cell.num 100]), ("maxHr", [Cell.nan])] =
      .error "cannot convert float NaN to integer" := by
  with_unfolding_all rfl

/-! ## exploration.py: chart renderers (lines 84-211)

Each renderer is modelled by the list of chart files it writes; an error
result models a raised exception. Matplotlib itself is a black box: a
`savefig` after plotting (even an empty plot — pandas only raises "no
numeric data" when a frame has no numeric columns, not when it has no
rows) writes its file. -/

/-- `value_counts().head(n)`. -/
def valueCountsHead (v : List Cell) (n : ℕ) : List (Cell × ℕ) :=
  (valueCounts v).take n

/-- src/exploration.py `plot_activity_counts`: only the presence of
`sport_group` is guarded; there is no emptiness guard, so with the column
present the bar chart is rendered and the file written even when the top
counts are empty. -/
def plot_activity_counts (df : DataFrame) : List String :=
  match getCol df "sport_group" with
  | none => []
  | some v =>
    let _top := valueCountsHead v 10
    ["activity_counts.png"]

/-- The calendar-day key of a start cell (`dt.date`); rows reaching this
have a non-null datetime. -/
def dayKey (c : Cell) : ℤ :=
  match c with
  | .dtime ms => dayOf ms
  | _ => 0

/-- src/exploration.py `plot_distance_over_time`: rows with a null start
time are dropped, distance is summed per calendar day, and the renderer
returns without writing when the aggregation is empty. -/
def plot_distance_over_time (df : DataFrame) : List String :=
  match getCol df "start_time_local", getCol df "distance_mi" with
  | some st, some dist =>
    let pairs := (List.zip st dist).filter (fun p => !p.1.isna)
    let days := dedupF (pairs.map (fun p => dayKey p.1))
    let daily := days.map (fun d =>
      (d, sumFillna0 ((pairs.filter (fun p => dayKey p.1 == d)).map
        (fun p => p.2))))
    if daily.isEmpty then [] else ["distance_over_time.png"]
  | _, _ => []

/-- src/exploration.py `plot_heart_rate_hist`: only the presence of
`avgHr` is guarded; with the column present the histogram (possibly of no
values) is drawn and the file written. -/
def plot_heart_rate_hist (df : DataFrame) : List String :=
  match getCol df "avgHr" with
  | none => []
  | some v =>
    let _values := numsOf v
    ["heart_rate_hist.png"]

/-- Stable insertion by descending value (`sort_values(ascending=False)`
on the group medians). -/
def insertByValue (x : Cell × ℚ) : List (Cell × ℚ) → List (Cell × ℚ)
  | [] => [x]
  | y :: ys => if x.2 ≥ y.2 then x :: y :: ys else y :: insertByValue x ys

/-- src/exploration.py `plot_duration_by_sport`: rows with either value
missing are dropped, the per-group medians are sorted descending and cut
to ten, and nothing is written when the aggregation is empty. -/
def plot_duration_by_sport (df : DataFrame) : List String :=
  match getCol df "sport_group", getCol df "duration_minutes" with
  | some sg, some dm =>
    let pairs := (List.zip sg dm).filter (fun p => !p.1.isna && !p.2.isna)
    let groups := dedupF (pairs.map (fun p => p.1))
    let medians := groups.map (fun g =>
      (g, (medianOpt ((pairs.filter (fun p => p.1 == g)).map
        (fun p => p.2))).getD 0))
    let agg := (medians.foldr insertByValue []).take 10
    if agg.isEmpty then [] else ["median_duration_by_sport.png"]
  | _, _ => []

/-- src/exploration.py `plot_hr_zone_distribution`: the zone columns are
the names starting with `hrTimeInZone_`, sorted by the integer suffix —
parsing the suffix with `int(...)` happens inside `sorted(...)`, before
the emptiness test, and raises on a malformed suffix. With zone columns
present the per-zone totals are never empty (one bar per column), so the
chart is always written. -/
def plot_hr_zone_distribution (df : DataFrame) : Except String (List String) :=
  let zcands := (colNames df).filter (fun c => c.startsWith "hrTimeInZone_")
  if zcands.isEmpty then .ok []
  else
    match zcands.mapM (fun c => ((c.splitOn "_").getLastD "").toInt?) with
    | some _ => .ok ["hr_zone_distribution.png"]
    | none => .error "invalid literal for int"

/-- The Monday-anchored week start of a millisecond epoch
(`to_period("W").start_time`; day 0, 1970-01-01, was a Thursday). -/
def weekStart (ms : ℚ) : ℤ :=
  let d := ⌊ms / 86400000⌋
  d - ((d + 3) % 7)

/-- The week key of a start cell. -/
def weekKey (c : Cell) : ℤ :=
  match c with
  | .dtime ms => weekStart ms
  | _ => 0

/-- src/exploration.py `plot_weekly_totals`: rows with a null start time
are dropped once; then, for each of the two measure columns that is
present, weekly sums are computed and the corresponding file written
unless the aggregation is empty. -/
def plot_weekly_totals (df : DataFrame) : List String :=
  match getCol df "start_time_local" with
  | none => []
  | some st =>
    let files1 :=
      match getCol df "distance_mi" with
      | some dist =>
        let pairs := (List.zip st dist).filter (fun p => !p.1.isna)
        let weeks := dedupF (pairs.map (fun p => weekKey p.1))
        let weekly := weeks.map (fun w =>
          (w, sumFillna0 ((pairs.filter (fun p => weekKey p.1 == w)).map
            (fun p => p.2))))
        if weekly.isEmpty then [] else ["weekly_distance.png"]
      | none => []
    let files2 :=
      match getCol df "duration_minutes" with
      | some dm =>
        let pairs := (List.zip st dm).filter (fun p => !p.1.isna)
        let weeks := dedupF (pairs.map (fun p => weekKey p.1))
        let weekly := weeks.map (fun w =>
          (w, sumFillna0 ((pairs.filter (fun p => weekKey p.1 == w)).map
            (fun p => p.2))))
        if weekly.isEmpty then [] else ["weekly_time.png"]
      | none => []
    files1 ++ files2

/-! ## Claim C7 -/

/-- C7 (amended): every renderer is a no-op when a required column is
absent, and the renderers with an explicit emptiness guard
(`plot_distance_over_time`, `plot_duration_by_sport`,
`plot_weekly_totals`) also do nothing on an empty aggregation; but
`plot_activity_counts` and `plot_heart_rate_hist` have no emptiness guard
and write their file whenever their column is present, even when the
aggregation is empty (see `plot_activity_counts_empty_agg_writes`). -/
theorem chart_renderers_guards (df : DataFrame) :
    (hasCol df "sport_group" = false → plot_activity_counts df = []) ∧
    (hasCol df "sport_group" = true →
      plot_activity_counts df = ["activity_counts.png"]) ∧
    (hasCol df "start_time_local" = false ∨ hasCol df "distance_mi" = false →
      plot_distance_over_time df = []) ∧
    (∀ st dist, getCol df "start_time_local" = some st →
      getCol df "distance_mi" = some dist →
      (List.zip st dist).filter (fun p => !p.1.isna) = [] →
      plot_distance_over_time df = []) ∧
    (hasCol df "avgHr" = false → plot_heart_rate_hist df = []) ∧
    (hasCol df "avgHr" = true →
      plot_heart_rate_hist df = ["heart_rate_hist.png"]) ∧
    (hasCol df "sport_group" = false ∨ hasCol df "duration_minutes" = false →
      plot_duration_by_sport df = []) ∧
    (∀ sg dm, getCol df "sport_group" = some sg →
      getCol df "duration_minutes" = some dm →
      (List.zip sg dm).filter (fun p => !p.1.isna && !p.2.isna) = [] →
      plot_duration_by_sport df = []) ∧
    ((colNames df).filter (fun c => c.startsWith "hrTimeInZone_") = [] →
      plot_hr_zone_distribution df = .ok []) ∧
    (hasCol df "start_time_local" = false → plot_weekly_totals df = []) ∧
    (∀ st, getCol df "start_time_local" = some st →
      st.filter (fun c => !c.isna) = [] → plot_weekly_totals df = []) := by
  refine ⟨?_, ?_, ?_, ?_, ?_, ?_, ?_, ?_, ?_, ?_, ?_⟩
  · intro h
    unfold plot_activity_counts
    rw [getCol_eq_none df _ (by rw [h]; exact Bool.false_ne_true)]
  · intro h
    unfold plot_activity_counts
    unfold hasCol at h
    cases hg : getCol df "sport_group" with
    | none => rw [hg] at h; cases h
    | some v => rfl
  · intro h
    unfold plot_distance_over_time
    rcases h with h | h
    · rw [getCol_eq_none df "start_time_local"
        (by rw [h]; exact Bool.false_ne_true)]
    · rw [getCol_eq_none df "distance_mi"
        (by rw [h]; exact Bool.false_ne_true)]
      cases getCol df "start_time_local" <;> rfl
  · intro st dist h1 h2 hemp
    unfold plot_distance_over_time
    rw [h1, h2]
    simp only [hemp, List.map_nil, dedupF, List.foldl_nil, List.isEmpty_nil,
      if_true]
  · intro h
    unfold plot_heart_rate_hist
    rw [getCol_eq_none df _ (by rw [h]; exact Bool.false_ne_true)]
  · intro h
    unfold plot_heart_rate_hist
    unfold hasCol at h
    cases hg : getCol df "avgHr" with
    | none => rw [hg] at h; cases h
    | some v => rfl
  · intro h
    unfold plot_duration_by_sport
    rcases h with h | h
    · rw [getCol_eq_none df "sport_group"
        (by rw [h]; exact Bool.false_ne_true)]
    · rw [getCol_eq_none df "duration_minutes"
        (by rw [h]; exact Bool.false_ne_true)]
      cases getCol df "sport_group" <;> rfl
  · intro sg dm h1 h2 hemp
    unfold plot_duration_by_sport
    rw [h1, h2]
    simp only [hemp, List.map_nil, dedupF, List.foldl_nil, List.take_nil,
      List.isEmpty_nil, if_true]
    rfl
  · intro h
    unfold plot_hr_zone_distribution
    rw [h]
    rfl
  · intro h
    unfold plot_weekly_totals
    rw [getCol_eq_none df _ (by rw [h]; exact Bool.false_ne_true)]
  · intro st h1 hemp
    unfold plot_weekly_totals
    rw [h1]
    have hzip : ∀ w : List Cell,
        (List.zip st w).filter (fun p => !p.1.isna) = [] := by
      intro w
      rw [List.filter_eq_nil_iff]
      intro p hp
      have hmem := (List.of_mem_zip hp).1
      have hall := List.filter_eq_nil_iff.mp hemp p.1 hmem
      exact hall
    cases h2 : getCol df "distance_mi" with
    | none =>
      cases h3 : getCol df "duration_minutes" with
      | none => rfl
      | some dm =>
        simp only [hzip dm, List.map_nil, dedupF, List.foldl_nil,
          List.isEmpty_nil, if_true, List.append_nil]
    | some dist =>
      cases h3 : getCol df "duration_minutes" with
      | none =>
        simp only [hzip dist, List.map_nil, dedupF, List.foldl_nil,
          List.isEmpty_nil, if_true, List.nil_append]
      | some dm =>
        simp only [hzip dist, hzip dm, List.map_nil, dedupF,
          List.foldl_nil, List.isEmpty_nil, if_true, List.append_nil]

/-- Concrete run of `chart_renderers_guards` on a table with none of the
required columns: every renderer is a no-op. -/
theorem chart_renderers_guards_witness :
    plot_activity_counts [("x", [Cell.num 1])] = [] ∧
    plot_distance_over_time [("x", [Cell.num 1])] = [] ∧
    plot_heart_rate_hist [("x", [Cell.num 1])] = [] ∧
    plot_duration_by_sport [("x", [Cell.num 1])] = [] ∧
    plot_hr_zone_distribution [("x", [Cell.num 1])] = .ok [] ∧
    plot_weekly_totals [("x", [Cell.num 1])] = [] := by
  have h := chart_renderers_guards [("x", [Cell.num 1])]
  exact ⟨h.1 rfl, h.2.2.1 (Or.inl rfl), h.2.2.2.2.1 rfl,
    h.2.2.2.2.2.2.1 (Or.inl rfl), h.2.2.2.2.2.2.2.2.1 (by decide),
    h.2.2.2.2.2.2.2.2.2.1 rfl⟩

/-- C7 counterexample: `plot_activity_counts` on a table whose
`sport_group` column exists but holds only a missing value has an empty
aggregation (`value_counts` over no non-null values) yet still renders
and writes the chart file instead of doing nothing. -/
theorem plot_activity_counts_empty_agg_writes :
    valueCountsHead [Cell.nan] 10 = [] ∧
    plot_activity_counts [("sport_group", [Cell.nan])] =
      ["activity_counts.png"] :=
  ⟨rfl, rfl⟩

end Garmin
